import Mathlib

/-!
Shallow embedding of the osdconfig watch/dispatch core of
david-enli/openstorage.

The constructor `newManager` is translated from `src/osdconfig/new.go`.
The callback registries, the change router and the direct get/set
operations are not in the provided sources (only the spec describes
them); those definitions carry a `Modelled from the spec:` doc comment.

Stateful Go code is embedded by explicit state passing: the kvdb store
is a record holding the watches registered so far, the key/value data,
and a behaviour function saying whether a `WatchTree` call on a given
prefix string fails.  Byte slices are `List Nat`.
-/

namespace Osdconfig

/-- The watcher type tag (`clusterWatcher` / `nodeWatcher` constants of
the osdconfig package) carried in the watch context. -/
inductive WatcherType where
  | clusterWatcher
  | nodeWatcher
deriving DecidableEq, Repr

/-- The `dataToKvdb` context struct passed to `kv.WatchTree`; its `Type`
field (a Lean keyword, renamed `wtype`) tags which watcher it is for. -/
structure dataToKvdb where
  wtype : WatcherType
deriving DecidableEq, Repr

/-- Which Go function value was passed to `WatchTree` as the watch
callback.  `newManager` always passes `manager.kvdbCallback`. -/
inductive WatchCb where
  | kvdbCallback
deriving DecidableEq, Repr

/-- One watch registration held by the store: the arguments of a
successful `WatchTree(prefixString, waitIndex, ctx, cb)` call. -/
structure WatchReg where
  pfx : String
  waitIndex : Nat
  ctx : dataToKvdb
  cb : WatchCb
deriving DecidableEq, Repr

/-- The kvdb action reported with a change (create / update / delete). -/
inductive KvdbAction where
  | create
  | update
  | del
deriving DecidableEq, Repr

/-- The kvdb store: `watchFails` is the store behaviour (whether a
`WatchTree` call on a given prefix string returns an error, and which),
`watches` the tree watches registered so far, `data` the key/value
contents. -/
structure Kvdb where
  watchFails : String → Option String
  watches : List WatchReg
  data : List (String × List Nat)

/-- `kv.WatchTree(pfx, waitIndex, ctx, cb)`: on success the watch is
appended to the store's registered watches; on failure the store is
unchanged and the error is returned. -/
def Kvdb.WatchTree (kv : Kvdb) (pfx : String) (waitIndex : Nat)
    (ctx : dataToKvdb) (cb : WatchCb) : Kvdb × Option String :=
  match kv.watchFails pfx with
  | some e => (kv, some e)
  | none =>
      ({ kv with watches := kv.watches ++ [⟨pfx, waitIndex, ctx, cb⟩] }, none)

/-- Modelled from the spec: the key constants `baseKey`, `clusterKey`,
`nodeKey` are not in the provided sources; the spec fixes the layout
`<baseKey>/<clusterKey>/<id>` and `<baseKey>/<nodeKey>/<id>` but not the
constant values, so representative distinct values are used. -/
def baseKey : String := "osdconfig"

/-- Modelled from the spec: the cluster subtree key constant. -/
def clusterKey : String := "cluster"

/-- Modelled from the spec: the node subtree key constant. -/
def nodeKey : String := "node"

/-- Go's `filepath.Join` restricted to clean, nonempty, slash-free
components, as used in `newManager`: joins with a single slash. -/
def filepathJoin (a b : String) : String := a ++ "/" ++ b

/-- A change record delivered to handlers: scope tag, raw key, raw
value bytes and the kvdb action. -/
structure ChangeRecord where
  scope : WatcherType
  key : String
  value : List Nat
  action : KvdbAction

/-- Modelled from the spec: the cluster callback shape; the concrete Go
type `CallbackClusterConfigFunc` is not in the provided sources.  A
handler consumes a change record and returns an optional error. -/
abbrev CallbackClusterConfigFunc : Type := ChangeRecord → Option String

/-- Modelled from the spec: the node callback shape; the concrete Go
type `CallbackNodeConfigFunc` is not in the provided sources. -/
abbrev CallbackNodeConfigFunc : Type := ChangeRecord → Option String

/-- A Go map from registration names to handlers: `none` is the nil
map (the zero value), `some l` an initialized map with entries `l`. -/
abbrev GoMap (H : Type) : Type := Option (List (String × H))

/-- The `configManager` struct as assigned in `newManager`: the two
callback registries and the store handle (the Go field is a pointer;
store state is threaded explicitly in this embedding). -/
structure configManager where
  cbCluster : GoMap CallbackClusterConfigFunc
  cbNode : GoMap CallbackNodeConfigFunc
  kv : Kvdb

/-- `newManager` from `src/osdconfig/new.go`: builds the manager with
freshly made (empty) registries and the store handle, then registers
the cluster-subtree watch and the node-subtree watch.  If either
`WatchTree` call errors, it returns `(nil, err)`; otherwise the manager
and no error.  The returned `Kvdb` is the store state afterwards. -/
def newManager (kv : Kvdb) : Kvdb × Option configManager × Option String :=
  let manager : configManager :=
    { cbCluster := some [], cbNode := some [], kv := kv }
  match kv.WatchTree (filepathJoin baseKey clusterKey) 0
      ⟨WatcherType.clusterWatcher⟩ WatchCb.kvdbCallback with
  | (kv1, some e) => (kv1, none, some e)
  | (kv1, none) =>
      match kv1.WatchTree (filepathJoin baseKey nodeKey) 0
          ⟨WatcherType.nodeWatcher⟩ WatchCb.kvdbCallback with
      | (kv2, some e) => (kv2, none, some e)
      | (kv2, none) => (kv2, some manager, none)

/-- `NewManager` from `src/osdconfig/new.go`: delegates to
`newManager`. -/
def NewManager (kv : Kvdb) : Kvdb × Option configManager × Option String :=
  newManager kv

/-- The cluster subtree watch prefix `baseKey/clusterKey`. -/
def clusterPfx : String := filepathJoin baseKey clusterKey

/-- The node subtree watch prefix `baseKey/nodeKey`. -/
def nodePfx : String := filepathJoin baseKey nodeKey

/-- Go's `strings.HasPrefix`, via the character lists underlying the
strings. -/
def hasPfx (s p : String) : Bool := p.data.isPrefixOf s.data

/-- Modelled from the spec: registry insertion — "inserts or replaces
the handler under `name`"; any prior entry under the name is dropped
and the new binding appended. -/
def registryInsert {H : Type} (l : List (String × H)) (n : String)
    (h : H) : List (String × H) :=
  l.filter (fun p => p.1 ≠ n) ++ [(n, h)]

/-- Modelled from the spec: registry removal — "removes the entry if
present; no-op (not an error) if absent". -/
def registryRemove {H : Type} (l : List (String × H)) (n : String) :
    List (String × H) :=
  l.filter (fun p => p.1 ≠ n)

/-- Writing into a Go map; the registries are always initialized by
construction, so a write to a nil map (a Go panic) is modelled as
initializing the map. -/
def goMapInsert {H : Type} (m : GoMap H) (n : String) (h : H) : GoMap H :=
  match m with
  | none => some [(n, h)]
  | some l => some (registryInsert l n h)

/-- Go `delete` on a map; a no-op on a nil map. -/
def goMapRemove {H : Type} (m : GoMap H) (n : String) : GoMap H :=
  match m with
  | none => none
  | some l => some (registryRemove l n)

/-- Modelled from the spec: `Snapshot()` — the point-in-time copy of
the `{name → handler}` mapping used for dispatch; ranging over a nil
map yields nothing. -/
def snapshot {H : Type} (m : GoMap H) : List (String × H) :=
  match m with
  | none => []
  | some l => l

/-- Modelled from the spec: `RegisterClusterCallback(name, handler)` —
delegates to the cluster registry; "always succeeds (no uniqueness
error)", so the error result is always `none`. -/
def RegisterClusterCallback (m : configManager) (n : String)
    (h : CallbackClusterConfigFunc) : configManager × Option String :=
  ({ m with cbCluster := goMapInsert m.cbCluster n h }, none)

/-- Modelled from the spec: `RegisterNodeCallback(name, handler)`. -/
def RegisterNodeCallback (m : configManager) (n : String)
    (h : CallbackNodeConfigFunc) : configManager × Option String :=
  ({ m with cbNode := goMapInsert m.cbNode n h }, none)

/-- Modelled from the spec: `DeregisterClusterCallback(name)` — removes
the entry if present, a no-op (never an error) if absent. -/
def DeregisterClusterCallback (m : configManager) (n : String) :
    configManager × Option String :=
  ({ m with cbCluster := goMapRemove m.cbCluster n }, none)

/-- Modelled from the spec: `DeregisterNodeCallback(name)`. -/
def DeregisterNodeCallback (m : configManager) (n : String) :
    configManager × Option String :=
  ({ m with cbNode := goMapRemove m.cbNode n }, none)

/-- The log line the router emits for a notification whose key matches
neither watched subtree. -/
def unexpectedKeyLog (key : String) : String :=
  "unexpected notification key: " ++ key

/-- The log line the router emits when a handler returns an error. -/
def handlerErrorLog (n e : String) : String :=
  "callback " ++ n ++ " returned error: " ++ e

/-- Modelled from the spec: the ChangeRouter dispatch entry point
(`kvdbCallback`) — classifies the notified key by prefix match against
the two watched subtrees, takes the matching scope's registry snapshot,
invokes each handler sequentially, logs (and swallows) per-handler
errors, and drops-and-logs a key matching neither subtree.  Returns
the manager state afterwards, the invocation list `(name, result)` in
invocation order, the log lines, and the error handed back to the
store's delivery mechanism. -/
def routeEvent (m : configManager) (key : String) (v : List Nat)
    (act : KvdbAction) :
    configManager × List (String × Option String) × List String ×
      Option String :=
  if hasPfx key clusterPfx then
    let rec' : ChangeRecord := ⟨WatcherType.clusterWatcher, key, v, act⟩
    let invs := (snapshot m.cbCluster).map (fun p => (p.1, p.2 rec'))
    let logs := invs.filterMap
      (fun p => (p.2).map (fun e => handlerErrorLog p.1 e))
    (m, invs, logs, none)
  else if hasPfx key nodePfx then
    let rec' : ChangeRecord := ⟨WatcherType.nodeWatcher, key, v, act⟩
    let invs := (snapshot m.cbNode).map (fun p => (p.1, p.2 rec'))
    let logs := invs.filterMap
      (fun p => (p.2).map (fun e => handlerErrorLog p.1 e))
    (m, invs, logs, none)
  else
    (m, [], [unexpectedKeyLog key], none)

/-- `kv.Put(key, value)`: stores the value under the key, replacing any
prior value. -/
def Kvdb.Put (kv : Kvdb) (key : String) (v : List Nat) : Kvdb :=
  { kv with data := kv.data.filter (fun p => p.1 ≠ key) ++ [(key, v)] }

/-- The store-level error taxonomy visible to get: absent key. -/
inductive KvdbError where
  | NotFound
deriving DecidableEq, Repr

/-- `kv.Get(key)`: the stored value, or `NotFound` if the key is
absent. -/
def Kvdb.Get (kv : Kvdb) (key : String) : Except KvdbError (List Nat) :=
  match kv.data.find? (fun p => p.1 = key) with
  | some p => Except.ok p.2
  | none => Except.error KvdbError.NotFound

/-- Modelled from the spec: `SetClusterConfig(id, value)` — write-
through to the store at `baseKey/clusterKey/id`; no local callback is
invoked synchronously. -/
def SetClusterConfig (kv : Kvdb) (id : String) (v : List Nat) : Kvdb :=
  kv.Put (filepathJoin clusterPfx id) v

/-- Modelled from the spec: `GetClusterConfig(id)` — direct read-
through to the store at `baseKey/clusterKey/id`; `NotFound` if
absent. -/
def GetClusterConfig (kv : Kvdb) (id : String) :
    Except KvdbError (List Nat) :=
  kv.Get (filepathJoin clusterPfx id)

/-- Modelled from the spec: `SetNodeConfig(id, value)`. -/
def SetNodeConfig (kv : Kvdb) (id : String) (v : List Nat) : Kvdb :=
  kv.Put (filepathJoin nodePfx id) v

/-- Modelled from the spec: `GetNodeConfig(id)`. -/
def GetNodeConfig (kv : Kvdb) (id : String) :
    Except KvdbError (List Nat) :=
  kv.Get (filepathJoin nodePfx id)

/-- A store on which every `WatchTree` call succeeds. -/
def storeOk : Kvdb :=
  { watchFails := fun _ => none, watches := [], data := [] }

/-- A store on which `WatchTree` fails on the cluster subtree. -/
def storeFailCluster : Kvdb :=
  { watchFails := fun p => if p = clusterPfx then some "boom" else none,
    watches := [], data := [] }

/-- A store on which `WatchTree` fails on the node subtree only. -/
def storeFailNode : Kvdb :=
  { watchFails := fun p => if p = nodePfx then some "boom" else none,
    watches := [], data := [] }

/-- The watch registration `newManager` makes for the cluster subtree. -/
def clusterWatchReg : WatchReg :=
  ⟨filepathJoin baseKey clusterKey, 0, ⟨WatcherType.clusterWatcher⟩,
    WatchCb.kvdbCallback⟩

/-- The watch registration `newManager` makes for the node subtree. -/
def nodeWatchReg : WatchReg :=
  ⟨filepathJoin baseKey nodeKey, 0, ⟨WatcherType.nodeWatcher⟩,
    WatchCb.kvdbCallback⟩

/-- The manager produced by a successful construction against
`storeOk`. -/
def managerOk : configManager :=
  { cbCluster := some [], cbNode := some [], kv := storeOk }

/-- A handler that always fails. -/
def hErr : CallbackClusterConfigFunc := fun _ => some "handler failure"

/-- A handler that always succeeds. -/
def hOk : CallbackClusterConfigFunc := fun _ => none

/-- A manager each of whose registries holds a failing handler
followed by a succeeding one. -/
def managerTwo : configManager :=
  { cbCluster := some [("a", hErr), ("b", hOk)],
    cbNode := some [("a", hErr), ("b", hOk)],
    kv := storeOk }

end Osdconfig

namespace Osdconfig

/-- Claim C1 — construction is all-or-nothing: if the watch
registration that fails is the cluster one, or the cluster one succeeds
and the node one fails, `newManager` returns the underlying error `e`
and a nil manager. -/
theorem newManager_all_or_nothing (kv : Kvdb) (e : String)
    (h : kv.watchFails (filepathJoin baseKey clusterKey) = some e ∨
      (kv.watchFails (filepathJoin baseKey clusterKey) = none ∧
       kv.watchFails (filepathJoin baseKey nodeKey) = some e)) :
    (newManager kv).2 = (none, some e) := by
  rcases h with hc | ⟨hc, hn⟩
  · simp [newManager, Kvdb.WatchTree, hc]
  · simp [newManager, Kvdb.WatchTree, hc, hn]

/-- Witness for C1: both failure shapes at concrete stores. -/
theorem newManager_all_or_nothing_witness :
    (newManager storeFailCluster).2 = (none, some "boom") ∧
    (newManager storeFailNode).2 = (none, some "boom") :=
  ⟨newManager_all_or_nothing storeFailCluster "boom"
      (Or.inl (by simp [storeFailCluster, clusterPfx])),
   newManager_all_or_nothing storeFailNode "boom"
      (Or.inr ⟨by simp [storeFailNode, nodePfx, clusterPfx, filepathJoin,
            baseKey, clusterKey, nodeKey],
          by simp [storeFailNode, nodePfx]⟩)⟩

/-- Claim C2 — if the cluster-subtree `WatchTree` call fails with `e`,
`newManager` returns the whole store state unchanged (in particular, no
node-subtree watch was registered by the attempt), a nil manager, and
the error `e`. -/
theorem newManager_cluster_fail_no_dangling_watch (kv : Kvdb)
    (e : String)
    (h : kv.watchFails (filepathJoin baseKey clusterKey) = some e) :
    newManager kv = (kv, none, some e) := by
  simp [newManager, Kvdb.WatchTree, h]

/-- Witness for C2 at a concrete store. -/
theorem newManager_cluster_fail_no_dangling_watch_witness :
    newManager storeFailCluster = (storeFailCluster, none, some "boom") :=
  newManager_cluster_fail_no_dangling_watch storeFailCluster "boom"
    (by simp [storeFailCluster, clusterPfx])

/-- Claim C3 — on success `newManager` registers exactly the two tree
watches: `baseKey/clusterKey` tagged as the cluster watcher and
`baseKey/nodeKey` tagged as the node watcher, both from index 0, both
using the manager's `kvdbCallback`, and returns a manager with no
error. -/
theorem newManager_registers_two_watches (kv : Kvdb)
    (hc : kv.watchFails (filepathJoin baseKey clusterKey) = none)
    (hn : kv.watchFails (filepathJoin baseKey nodeKey) = none) :
    (newManager kv).1.watches = kv.watches ++
      [⟨filepathJoin baseKey clusterKey, 0,
          ⟨WatcherType.clusterWatcher⟩, WatchCb.kvdbCallback⟩,
       ⟨filepathJoin baseKey nodeKey, 0,
          ⟨WatcherType.nodeWatcher⟩, WatchCb.kvdbCallback⟩] ∧
    (newManager kv).2.1.isSome = true ∧ (newManager kv).2.2 = none := by
  simp [newManager, Kvdb.WatchTree, hc, hn]

/-- Witness for C3 at a concrete store. -/
theorem newManager_registers_two_watches_witness :
    (newManager storeOk).1.watches = storeOk.watches ++
      [⟨filepathJoin baseKey clusterKey, 0,
          ⟨WatcherType.clusterWatcher⟩, WatchCb.kvdbCallback⟩,
       ⟨filepathJoin baseKey nodeKey, 0,
          ⟨WatcherType.nodeWatcher⟩, WatchCb.kvdbCallback⟩] ∧
    (newManager storeOk).2.1.isSome = true ∧
    (newManager storeOk).2.2 = none :=
  newManager_registers_two_watches storeOk rfl rfl

/-- Claim C9 — if the cluster watch succeeds and the node watch fails,
`newManager` returns a nil manager and the error, but the
already-registered cluster watch stays in the store; a second failed
construction against the resulting store leaves two accumulated
cluster watches. -/
theorem newManager_node_fail_leaks_cluster_watch (kv : Kvdb)
    (e : String)
    (hc : kv.watchFails (filepathJoin baseKey clusterKey) = none)
    (hn : kv.watchFails (filepathJoin baseKey nodeKey) = some e) :
    (newManager kv).2.1 = none ∧ (newManager kv).2.2 = some e ∧
    (newManager kv).1.watches = kv.watches ++ [clusterWatchReg] ∧
    (newManager (newManager kv).1).2.1 = none ∧
    (newManager (newManager kv).1).1.watches =
      kv.watches ++ [clusterWatchReg, clusterWatchReg] := by
  simp [newManager, Kvdb.WatchTree, hc, hn, clusterWatchReg]

/-- Witness for C9 at a concrete store. -/
theorem newManager_node_fail_leaks_cluster_watch_witness :
    (newManager storeFailNode).2.1 = none ∧
    (newManager storeFailNode).2.2 = some "boom" ∧
    (newManager storeFailNode).1.watches =
      storeFailNode.watches ++ [clusterWatchReg] ∧
    (newManager (newManager storeFailNode).1).2.1 = none ∧
    (newManager (newManager storeFailNode).1).1.watches =
      storeFailNode.watches ++ [clusterWatchReg, clusterWatchReg] :=
  newManager_node_fail_leaks_cluster_watch storeFailNode "boom"
    (by simp [storeFailNode, nodePfx, clusterPfx, filepathJoin,
        baseKey, clusterKey, nodeKey])
    (by simp [storeFailNode, nodePfx])

/-- Claim C10 — every successfully constructed manager starts with both
registries initialized as empty, non-nil maps, and a watch event
delivered right after construction finds the initialized empty registry
and invokes no handler. -/
theorem newManager_initializes_registries (kv : Kvdb)
    (m : configManager) (key : String) (v : List Nat)
    (act : KvdbAction)
    (h : (newManager kv).2.1 = some m) :
    m.cbCluster = some [] ∧ m.cbNode = some [] ∧
    (routeEvent m key v act).2.1 = [] := by
  unfold newManager Kvdb.WatchTree at h
  cases hc : kv.watchFails (filepathJoin baseKey clusterKey) with
  | some e => simp [hc] at h
  | none =>
    cases hn : kv.watchFails (filepathJoin baseKey nodeKey) with
    | some e => simp [hc, hn] at h
    | none =>
      simp [hc, hn] at h
      refine ⟨by rw [← h], by rw [← h], ?_⟩
      unfold routeEvent
      split
      · simp [← h, snapshot]
      · split
        · simp [← h, snapshot]
        · simp

/-- Witness for C10 at a concrete store and event. -/
theorem newManager_initializes_registries_witness :
    managerOk.cbCluster = some [] ∧ managerOk.cbNode = some [] ∧
    (routeEvent managerOk "osdconfig/cluster/x" [1] KvdbAction.create).2.1
      = [] :=
  newManager_initializes_registries storeOk managerOk
    "osdconfig/cluster/x" [1] KvdbAction.create rfl

/-- Snapshot of a map after insertion is insertion into the
snapshot. -/
theorem snapshot_goMapInsert {H : Type} (M : GoMap H) (n : String)
    (h : H) :
    snapshot (goMapInsert M n h) = registryInsert (snapshot M) n h := by
  cases M <;> simp [goMapInsert, snapshot, registryInsert]

/-- After insertion, the entries under the inserted name are exactly
the freshly inserted binding. -/
theorem registryInsert_filter_self {H : Type} (l : List (String × H))
    (n : String) (h : H) :
    (registryInsert l n h).filter (fun q => q.1 = n) = [(n, h)] := by
  unfold registryInsert
  rw [List.filter_append, List.filter_filter]
  simp

/-- Filtering the dispatch invocation list by name commutes with
filtering the snapshot by name. -/
theorem dispatchAppFilter (l : List (String × (ChangeRecord → Option String)))
    (c : ChangeRecord) (n : String) :
    ((l.map (fun p => (p.1, p.2 c))).filter (fun q => q.1 = n)) =
      (l.filter (fun p => p.1 = n)).map (fun p => (p.1, p.2 c)) := by
  induction l with
  | nil => rfl
  | cons a t ih =>
    by_cases h : a.1 = n <;> simp [h, ih]

/-- No invocation under a name survives its removal from the
registry. -/
theorem not_mem_route_names (M : GoMap (ChangeRecord → Option String))
    (n : String) (c : ChangeRecord) :
    n ∉ ((snapshot (goMapRemove M n)).map
      (fun p => (p.1, p.2 c))).map Prod.fst := by
  cases M with
  | none => simp [goMapRemove, snapshot]
  | some l =>
      simp [goMapRemove, snapshot, registryRemove, List.mem_map,
        List.mem_filter]

/-- A put followed by a lookup of the same key finds the new value. -/
theorem find?_after_put (l : List (String × List Nat)) (k : String)
    (v : List Nat) :
    ((l.filter (fun p => p.1 ≠ k)) ++ [(k, v)]).find?
      (fun p => p.1 = k) = some (k, v) := by
  rw [List.find?_append]
  have h0 : (l.filter (fun p => p.1 ≠ k)).find?
      (fun (p : String × List Nat) => p.1 = k) = none := by
    rw [List.find?_eq_none]
    intro x hx
    simp [List.mem_filter] at hx
    simp [hx.2]
  rw [h0]
  simp [List.find?]

end Osdconfig

namespace Osdconfig

/-- Claim C4 — in each scope, registering under an already-registered
name replaces the prior handler without error: after registering `h1`
then `h2` under the same name, a dispatched event in that scope invokes
the name exactly once, with the second handler, never the first and
never both.  Shown for the cluster scope on `key1` and the node scope
on `key2`. -/
theorem register_last_writer_wins (m : configManager)
    (n key1 key2 : String) (h1 h2 : CallbackClusterConfigFunc)
    (g1 g2 : CallbackNodeConfigFunc) (v : List Nat) (act : KvdbAction)
    (hk1 : hasPfx key1 clusterPfx = true)
    (hk2c : hasPfx key2 clusterPfx = false)
    (hk2n : hasPfx key2 nodePfx = true) :
    (RegisterClusterCallback m n h1).2 = none ∧
    (RegisterClusterCallback (RegisterClusterCallback m n h1).1 n h2).2
      = none ∧
    ((routeEvent
        (RegisterClusterCallback (RegisterClusterCallback m n h1).1 n h2).1
        key1 v act).2.1).filter (fun q => q.1 = n) =
      [(n, h2 ⟨WatcherType.clusterWatcher, key1, v, act⟩)] ∧
    ((routeEvent
        (RegisterNodeCallback (RegisterNodeCallback m n g1).1 n g2).1
        key2 v act).2.1).filter (fun q => q.1 = n) =
      [(n, g2 ⟨WatcherType.nodeWatcher, key2, v, act⟩)] := by
  refine ⟨rfl, rfl, ?_, ?_⟩
  · simp only [routeEvent, RegisterClusterCallback, hk1, if_true]
    rw [dispatchAppFilter, snapshot_goMapInsert, snapshot_goMapInsert,
      registryInsert_filter_self]
    simp
  · simp only [routeEvent, RegisterNodeCallback, hk2c, hk2n,
      Bool.false_eq_true, if_false, if_true]
    rw [dispatchAppFilter, snapshot_goMapInsert, snapshot_goMapInsert,
      registryInsert_filter_self]
    simp

/-- Claim C5 — in either scope, every handler present in the
dispatched scope's snapshot is invoked in that dispatch, regardless of
what any handler (including an erroring one) returns; no error is
handed back to the store's delivery mechanism, and the manager's
registries are unchanged (no handler is unregistered).  Shown for a
cluster-scope dispatch on `key1` and a node-scope dispatch on
`key2`. -/
theorem handler_error_isolated (m : configManager)
    (key1 key2 n1 n2 : String) (h : CallbackClusterConfigFunc)
    (g : CallbackNodeConfigFunc) (v : List Nat) (act : KvdbAction)
    (hk1 : hasPfx key1 clusterPfx = true)
    (hk2c : hasPfx key2 clusterPfx = false)
    (hk2n : hasPfx key2 nodePfx = true)
    (hmem : (n1, h) ∈ snapshot m.cbCluster)
    (hmemN : (n2, g) ∈ snapshot m.cbNode) :
    (n1, h ⟨WatcherType.clusterWatcher, key1, v, act⟩) ∈
      (routeEvent m key1 v act).2.1 ∧
    (routeEvent m key1 v act).2.2.2 = none ∧
    (routeEvent m key1 v act).1 = m ∧
    (n2, g ⟨WatcherType.nodeWatcher, key2, v, act⟩) ∈
      (routeEvent m key2 v act).2.1 ∧
    (routeEvent m key2 v act).2.2.2 = none ∧
    (routeEvent m key2 v act).1 = m := by
  refine ⟨?_, ?_, ?_, ?_, ?_, ?_⟩
  · simp only [routeEvent, hk1, if_true]
    exact List.mem_map_of_mem _ hmem
  · simp [routeEvent, hk1]
  · simp [routeEvent, hk1]
  · simp only [routeEvent, hk2c, hk2n, Bool.false_eq_true, if_false,
      if_true]
    exact List.mem_map_of_mem _ hmemN
  · simp [routeEvent, hk2c, hk2n]
  · simp [routeEvent, hk2c, hk2n]

/-- Claim C6 — in either scope, after deregistering a name no
invocation under that name occurs in any later dispatch of that scope,
and deregistration reports no error; deregistering an absent name is a
no-op on the manager in either scope, again with no error.  Shown for
the cluster registry on `key1` and the node registry on `key2`. -/
theorem deregister_stops_invocations (m m2 : configManager)
    (n n2 key1 key2 : String) (v : List Nat) (act : KvdbAction)
    (hk1 : hasPfx key1 clusterPfx = true)
    (hk2c : hasPfx key2 clusterPfx = false)
    (hk2n : hasPfx key2 nodePfx = true)
    (habs : (snapshot m2.cbCluster).find? (fun p => p.1 = n2) = none)
    (habsN : (snapshot m2.cbNode).find? (fun p => p.1 = n2) = none) :
    n ∉ ((routeEvent (DeregisterClusterCallback m n).1 key1 v
        act).2.1).map Prod.fst ∧
    (DeregisterClusterCallback m n).2 = none ∧
    n ∉ ((routeEvent (DeregisterNodeCallback m n).1 key2 v
        act).2.1).map Prod.fst ∧
    (DeregisterNodeCallback m n).2 = none ∧
    (DeregisterClusterCallback m2 n2).1 = m2 ∧
    (DeregisterClusterCallback m2 n2).2 = none ∧
    (DeregisterNodeCallback m2 n2).1 = m2 ∧
    (DeregisterNodeCallback m2 n2).2 = none := by
  refine ⟨?_, rfl, ?_, rfl, ?_, rfl, ?_, rfl⟩
  · simp only [routeEvent, DeregisterClusterCallback, hk1, if_true]
    exact not_mem_route_names m.cbCluster n
      ⟨WatcherType.clusterWatcher, key1, v, act⟩
  · simp only [routeEvent, DeregisterNodeCallback, hk2c, hk2n,
      Bool.false_eq_true, if_false, if_true]
    exact not_mem_route_names m.cbNode n
      ⟨WatcherType.nodeWatcher, key2, v, act⟩
  · obtain ⟨cc, cn, skv⟩ := m2
    cases cc with
    | none => rfl
    | some l =>
        simp only [snapshot] at habs
        rw [List.find?_eq_none] at habs
        simp only [DeregisterClusterCallback, goMapRemove, registryRemove]
        simp only [configManager.mk.injEq, Option.some.injEq, and_true,
          true_and]
        rw [List.filter_eq_self]
        intro p hp
        simpa using habs p hp
  · obtain ⟨cc, cn, skv⟩ := m2
    cases cn with
    | none => rfl
    | some l =>
        simp only [snapshot] at habsN
        rw [List.find?_eq_none] at habsN
        simp only [DeregisterNodeCallback, goMapRemove, registryRemove]
        simp only [configManager.mk.injEq, Option.some.injEq, and_true,
          true_and]
        rw [List.filter_eq_self]
        intro p hp
        simpa using habsN p hp

/-- Claim C7 — setting a cluster config value and reading it back
through the store returns the value just written, and reading an id
whose key was never set returns NotFound. -/
theorem set_get_cluster_roundtrip (kv kv2 : Kvdb) (id id2 : String)
    (v : List Nat)
    (habs : ∀ p ∈ kv2.data, p.1 ≠ filepathJoin clusterPfx id2) :
    GetClusterConfig (SetClusterConfig kv id v) id = Except.ok v ∧
    GetClusterConfig kv2 id2 = Except.error KvdbError.NotFound := by
  constructor
  · unfold GetClusterConfig SetClusterConfig Kvdb.Get Kvdb.Put
    rw [find?_after_put]
  · unfold GetClusterConfig Kvdb.Get
    have h0 : kv2.data.find?
        (fun p => p.1 = filepathJoin clusterPfx id2) = none := by
      rw [List.find?_eq_none]
      intro x hx
      simpa using habs x hx
    rw [h0]

/-- Claim C8 — a notification whose key matches neither the cluster
nor the node subtree prefix is dropped: no handler in either scope is
invoked, the event is logged as unexpected, no error is returned to
the store, and the manager is unchanged. -/
theorem unknown_key_dropped (m : configManager) (key : String)
    (v : List Nat) (act : KvdbAction)
    (hc : hasPfx key clusterPfx = false)
    (hn : hasPfx key nodePfx = false) :
    routeEvent m key v act = (m, [], [unexpectedKeyLog key], none) := by
  simp [routeEvent, hc, hn]

/-- Witness for C4 at a concrete manager, name and events. -/
theorem register_last_writer_wins_witness :
    (RegisterClusterCallback managerOk "n" hErr).2 = none ∧
    (RegisterClusterCallback
      (RegisterClusterCallback managerOk "n" hErr).1 "n" hOk).2 = none ∧
    ((routeEvent
        (RegisterClusterCallback
          (RegisterClusterCallback managerOk "n" hErr).1 "n" hOk).1
        "osdconfig/cluster/a" [1] KvdbAction.create).2.1).filter
        (fun q => q.1 = "n") =
      [("n", hOk ⟨WatcherType.clusterWatcher, "osdconfig/cluster/a",
        [1], KvdbAction.create⟩)] ∧
    ((routeEvent
        (RegisterNodeCallback
          (RegisterNodeCallback managerOk "n" hErr).1 "n" hOk).1
        "osdconfig/node/a" [1] KvdbAction.create).2.1).filter
        (fun q => q.1 = "n") =
      [("n", hOk ⟨WatcherType.nodeWatcher, "osdconfig/node/a",
        [1], KvdbAction.create⟩)] :=
  register_last_writer_wins managerOk "n" "osdconfig/cluster/a"
    "osdconfig/node/a" hErr hOk hErr hOk [1] KvdbAction.create
    (by decide) (by decide) (by decide)

/-- Witness for C5: in each scope, the succeeding handler registered
after a failing one is still invoked, nothing reaches the store,
nothing is unregistered. -/
theorem handler_error_isolated_witness :
    ("b", hOk ⟨WatcherType.clusterWatcher, "osdconfig/cluster/x", [1],
        KvdbAction.create⟩) ∈
      (routeEvent managerTwo "osdconfig/cluster/x" [1]
        KvdbAction.create).2.1 ∧
    (routeEvent managerTwo "osdconfig/cluster/x" [1]
      KvdbAction.create).2.2.2 = none ∧
    (routeEvent managerTwo "osdconfig/cluster/x" [1]
      KvdbAction.create).1 = managerTwo ∧
    ("b", hOk ⟨WatcherType.nodeWatcher, "osdconfig/node/x", [1],
        KvdbAction.create⟩) ∈
      (routeEvent managerTwo "osdconfig/node/x" [1]
        KvdbAction.create).2.1 ∧
    (routeEvent managerTwo "osdconfig/node/x" [1]
      KvdbAction.create).2.2.2 = none ∧
    (routeEvent managerTwo "osdconfig/node/x" [1]
      KvdbAction.create).1 = managerTwo :=
  handler_error_isolated managerTwo "osdconfig/cluster/x"
    "osdconfig/node/x" "b" "b" hOk hOk [1] KvdbAction.create
    (by decide) (by decide) (by decide)
    (by simp [managerTwo, snapshot]) (by simp [managerTwo, snapshot])

/-- Witness for C6 at concrete managers, names and events in both
scopes. -/
theorem deregister_stops_invocations_witness :
    "a" ∉ ((routeEvent (DeregisterClusterCallback managerTwo "a").1
        "osdconfig/cluster/x" [1] KvdbAction.create).2.1).map
        Prod.fst ∧
    (DeregisterClusterCallback managerTwo "a").2 = none ∧
    "a" ∉ ((routeEvent (DeregisterNodeCallback managerTwo "a").1
        "osdconfig/node/x" [1] KvdbAction.create).2.1).map
        Prod.fst ∧
    (DeregisterNodeCallback managerTwo "a").2 = none ∧
    (DeregisterClusterCallback managerOk "c").1 = managerOk ∧
    (DeregisterClusterCallback managerOk "c").2 = none ∧
    (DeregisterNodeCallback managerOk "c").1 = managerOk ∧
    (DeregisterNodeCallback managerOk "c").2 = none :=
  deregister_stops_invocations managerTwo managerOk "a" "c"
    "osdconfig/cluster/x" "osdconfig/node/x" [1] KvdbAction.create
    (by decide) (by decide) (by decide) rfl rfl

/-- Witness for C7 at a concrete store, id and value. -/
theorem set_get_cluster_roundtrip_witness :
    GetClusterConfig (SetClusterConfig storeOk "a" [1, 2]) "a" =
      Except.ok [1, 2] ∧
    GetClusterConfig storeOk "b" = Except.error KvdbError.NotFound :=
  set_get_cluster_roundtrip storeOk storeOk "a" "b" [1, 2]
    (by simp [storeOk])

/-- Witness for C8 at a concrete manager and an unmatched key. -/
theorem unknown_key_dropped_witness :
    routeEvent managerOk "foo/bar" [1] KvdbAction.create =
      (managerOk, [], [unexpectedKeyLog "foo/bar"], none) :=
  unknown_key_dropped managerOk "foo/bar" [1] KvdbAction.create
    (by decide) (by decide)

end Osdconfig
